import Mathlib

/-!
Verification of the GenAI-hackathon trip-planner repository.

Shallow embedding of the expense/budget/itinerary operations:
  * `flask_travel_app/app.py` — dashboard aggregation and the two dashboard
    HTTP endpoints;
  * `travel-budget-optimizer/.../spending_analyzer/tools.py` — spending
    analysis and budget-vs-actual classification;
  * `expense-tracker-gcp-master/expense_agent/agent.py` — expense/budget CRUD
    and the monthly summary;
  * `personalized-travel-agent/.../firestore_persistence.py` — itinerary
    save/load against Firestore.

Python floats are modelled as exact rationals (ℚ); Python ints as ℤ/ℕ;
Firestore collections as lists of documents (fetch order = list order) or as
maps from document id to an optional document.  Firestore string-field range
filters compare strings lexicographically, as Lean's `String` order does.
-/

/-! ### Python `datetime.strptime(s, "%Y-%m-%d")`

CPython's `_strptime` compiles the format to the regex
`(?P<Y>\d\d\d\d)\-(?P<m>1[0-2]|0[1-9]|[1-9])\-(?P<d>3[01]|[12]\d|0[1-9]|[1-9]| [1-9])`,
anchored at the start and rejecting leftover characters, then builds the
`datetime`, which validates the calendar (year 1..9999, month 1..12, day
within the month, Gregorian leap rule).  So `%Y` is exactly 4 digits, `%m`
is 1-2 digits, and `%d` is 1-2 digits or a space followed by a nonzero
digit (`int(" 9") = 9`).  A 1-2 digit field whose value is out of range
fails either in the regex or in the `datetime` constructor; both are
`ValueError`, so they are modelled uniformly by the range checks below.
Digits are modelled as ASCII digits. -/

def splitOnChar (c : Char) : List Char → List (List Char)
  | [] => [[]]
  | x :: xs =>
    let r := splitOnChar c xs
    if x = c then [] :: r
    else
      match r with
      | [] => [[x]]
      | h :: t => (x :: h) :: t

def digitsToNat (l : List Char) : ℕ :=
  l.foldl (fun n c => 10 * n + (c.toNat - 48)) 0

def isDigitStr (l : List Char) : Bool :=
  decide (l ≠ []) && l.all Char.isDigit

def isLeapYear (y : ℕ) : Bool :=
  y % 4 = 0 && (y % 100 ≠ 0 || y % 400 = 0)

def daysInMonth (y m : ℕ) : ℕ :=
  if m = 2 then (if isLeapYear y then 29 else 28)
  else if m = 4 ∨ m = 6 ∨ m = 9 ∨ m = 11 then 30
  else 31

/-- The `%d` slot: 1-2 ASCII digits, or a space followed by a nonzero digit
(the ` [1-9]` alternative of CPython's day regex). -/
def parseDayPart (l : List Char) : Option ℕ :=
  if isDigitStr l && l.length ≤ 2 then some (digitsToNat l)
  else
    match l with
    | [' ', c] => if c.isDigit && c ≠ '0' then some (c.toNat - 48) else none
    | _ => none

/-- Result of `datetime.strptime(s, "%Y-%m-%d")`: `some (year, month, day)`
on success, `none` when the call raises `ValueError`. -/
def parseYMD (s : String) : Option (ℕ × ℕ × ℕ) :=
  match splitOnChar '-' s.toList with
  | [ys, ms, ds] =>
    if isDigitStr ys && ys.length = 4 && isDigitStr ms && ms.length ≤ 2 then
      match parseDayPart ds with
      | none => none
      | some d =>
        let y := digitsToNat ys
        let m := digitsToNat ms
        if 1 ≤ y ∧ 1 ≤ m ∧ m ≤ 12 ∧ 1 ≤ d ∧ d ≤ daysInMonth y m then
          some (y, m, d)
        else none
    else none
  | _ => none

/-- `datetime.strptime("202-12-01", "%Y-%m-%d")` raises: `%Y` needs exactly
four digits. -/
theorem parseYMD_rejects_short_year : parseYMD "202-12-01" = none := by decide

/-- `datetime.strptime("2024-01- 9", "%Y-%m-%d")` succeeds: `%d` accepts a
space-padded day. -/
theorem parseYMD_accepts_space_padded_day :
    parseYMD "2024-01- 9" = some (2024, 1, 9) := by decide

/-- Left-pad the decimal representation of `n` with zeros to width `w`
(as Python's `datetime.isoformat` does for year/month/day). -/
def padNum (w n : ℕ) : String :=
  let s := toString n
  String.mk (List.replicate (w - s.length) '0') ++ s

/-- `datetime(y, m, d, hh, mm, ss).isoformat()` for the fixed times used by
the dashboard code, e.g. `"2024-01-05T00:00:00"`. -/
def isoOf (t : ℕ × ℕ × ℕ) (time : String) : String :=
  padNum 4 t.1 ++ "-" ++ padNum 2 t.2.1 ++ "-" ++ padNum 2 t.2.2 ++ "T" ++ time

/-- `datetime.strptime(start_date, "%Y-%m-%d").isoformat()` — midnight of the
start date, or `none` when parsing raises. -/
def startIsoOf (s : String) : Option String :=
  (parseYMD s).map (fun t => isoOf t "00:00:00")

/-- `end_dt.replace(hour=23, minute=59, second=59).isoformat()` — or `none`
when parsing raises. -/
def endIsoOf (s : String) : Option String :=
  (parseYMD s).map (fun t => isoOf t "23:59:59")

/-- Lexicographic comparison of character lists by code point. -/
def charListLe : List Char → List Char → Bool
  | [], _ => true
  | _ :: _, [] => false
  | a :: as, b :: bs => a < b || (a = b && charListLe as bs)

/-- Python's (and Firestore's, for ASCII) `<=` on strings: lexicographic by
code point. -/
def strLe (a b : String) : Bool := charListLe a.data b.data

/-! ### Dashboard aggregation (`flask_travel_app/app.py`, `get_dashboard_data`)

A Firestore expense document; every field other than the id may be absent
(`doc.to_dict()` is an arbitrary dict).  `date` holds the ISO-8601 string the
app writes. -/

structure ExpenseDoc where
  id : String
  name : Option String
  amount : Option ℚ
  category : Option String
  date : Option String
  deriving Repr, DecidableEq

/-- `if not data: continue` — the empty-dict test on `doc.to_dict()`. -/
def ExpenseDoc.emptyData (d : ExpenseDoc) : Bool :=
  d.name.isNone && d.amount.isNone && d.category.isNone && d.date.isNone

/-- `float(data.get("amount", 0))`. -/
def ExpenseDoc.amt (d : ExpenseDoc) : ℚ := d.amount.getD 0

/-- `data.get("category", "Uncategorized")`. -/
def ExpenseDoc.cat (d : ExpenseDoc) : String := d.category.getD "Uncategorized"

/-- A Firestore `where("date", ">=", lo)` / `where("date", "<=", hi)` query:
a document matches only if its `date` field is present and within the given
(string-compared) bounds; an absent bound imposes no constraint. -/
def lowerBoundOk (lo : Option String) (date : Option String) : Bool :=
  match lo with
  | none => true
  | some l =>
    match date with
    | none => false
    | some d => strLe l d

def upperBoundOk (hi : Option String) (date : Option String) : Bool :=
  match hi with
  | none => true
  | some h =>
    match date with
    | none => false
    | some d => strLe d h

def passesBounds (lo hi : Option String) (doc : ExpenseDoc) : Bool :=
  lowerBoundOk lo doc.date && upperBoundOk hi doc.date

/-- One entry of the `expenses` preview list built inside the loop. -/
structure ExpensePreview where
  id : String
  name : String
  amount : ℚ
  category : String
  date : Option String
  deriving Repr, DecidableEq

def ExpenseDoc.preview (d : ExpenseDoc) : ExpensePreview :=
  { id := d.id
    name := d.name.getD ""
    amount := d.amt
    category := d.cat
    date := d.date }

/-- Python-dict category accumulation: `if category not in categories:
categories[category] = 0.0; categories[category] += amount`.  The dict is
modelled as an association list in insertion order. -/
def addCategory : List (String × ℚ) → String → ℚ → List (String × ℚ)
  | [], c, a => [(c, a)]
  | (k, v) :: rest, c, a =>
    if k = c then (k, v + a) :: rest else (k, v) :: addCategory rest c a

/-- Accumulator of the `for doc in docs:` loop in `get_dashboard_data`.
The `dates` list / `date_range` output of the source (used by no claim) is
not tracked. -/
structure DashAcc where
  expenses : List ExpensePreview
  total_amount : ℚ
  categories : List (String × ℚ)
  expense_count : ℕ
  deriving Repr, DecidableEq

/-- One iteration of the loop body (a document with empty data is skipped). -/
def dashStep (acc : DashAcc) (doc : ExpenseDoc) : DashAcc :=
  if doc.emptyData then acc
  else
    { expenses := acc.expenses ++ [doc.preview]
      total_amount := acc.total_amount + doc.amt
      categories := addCategory acc.categories doc.cat doc.amt
      expense_count := acc.expense_count + 1 }

def dashLoop (docs : List ExpenseDoc) : DashAcc :=
  docs.foldl dashStep { expenses := [], total_amount := 0, categories := [], expense_count := 0 }

/-- The dict returned by `get_dashboard_data` (minus `date_range`). -/
structure DashboardData where
  total_amount : ℚ
  expense_count : ℕ
  average_expense : ℚ
  categories : List (String × ℚ)
  expenses : List ExpensePreview
  deriving Repr, DecidableEq

/-- Turn an optional raw date parameter into an optional query bound:
an absent parameter imposes no bound, a present one is parsed (and the
parse failure, `none`, aborts the whole call). -/
def resolveBound (f : String → Option String) : Option String → Option (Option String)
  | none => some none
  | some s =>
    match f s with
    | none => none
    | some iso => some (some iso)

/-- `get_dashboard_data(start_date, end_date)` over a collection `db` in
fetch order.  Returns `none` when `datetime.strptime` raises on a supplied
bound (the exception propagates to the caller). -/
def get_dashboard_data (db : List ExpenseDoc) (start_date end_date : Option String) :
    Option DashboardData :=
  match resolveBound startIsoOf start_date, resolveBound endIsoOf end_date with
  | some lo, some hi =>
    let acc := dashLoop (db.filter (passesBounds lo hi))
    some
      { total_amount := acc.total_amount
        expense_count := acc.expense_count
        average_expense :=
          if acc.expense_count > 0 then acc.total_amount / acc.expense_count else 0
        categories := acc.categories
        expenses := acc.expenses.take 10 }
  | _, _ => none

/-- The range filter exactly as the claims describe it: the document's date
string is present and lies between the two ISO bound strings. -/
def inDateRange (loIso hiIso : String) (doc : ExpenseDoc) : Bool :=
  match doc.date with
  | some d => strLe loIso d && strLe d hiIso
  | none => false

/-! ### Dashboard HTTP endpoints (`flask_travel_app/app.py`)

An endpoint result is an HTTP status code together with either the dashboard
payload (the 200 branch) or the error message of the JSON error body. -/

/-- The escaping `json.dumps` applies inside a JSON string (backslash, quote
and the common control characters). -/
def jsonEscapeChar (c : Char) : List Char :=
  if c = '\\' then ['\\', '\\']
  else if c = '"' then ['\\', '"']
  else if c = '\n' then ['\\', 'n']
  else if c = '\t' then ['\\', 't']
  else if c = '\r' then ['\\', 'r']
  else [c]

def jsonEscape (s : String) : String :=
  String.mk (s.data.flatMap jsonEscapeChar)

/-- `json.dumps({"error": msg})`. -/
def jsonErrorObj (msg : String) : String :=
  "\x7b\"error\": \"" ++ jsonEscape msg ++ "\"\x7d"

/-- One SSE chunk `data: <payload>\n\n`. -/
def sseChunk (payload : String) : String := "data: " ++ payload ++ "\n\n"

/-- `event_stream` of `POST /api/sessions/<id>/stream`: yields one SSE chunk
per upstream event; an exception is caught and converted into a single final
error chunk. -/
def streamChatEventStream (events : List String) (exn : Option String) : List String :=
  events.map sseChunk ++
    match exn with
    | none => []
    | some msg =>
      [sseChunk (jsonErrorObj ("An error occurred while streaming: " ++ msg))]

/-- `event_stream` of `POST /api/expense/run_sse`: forwards the non-empty
upstream lines that start with `"data: "` (appending the SSE separator), and
converts an exception into a single final error chunk. -/
def expenseRunSseEventStream (lines : List String) (exn : Option String) : List String :=
  (lines.filter (fun l => decide (l ≠ "") && l.startsWith "data: ")).map
      (fun l => l ++ "\n\n") ++
    match exn with
    | none => []
    | some msg =>
      [sseChunk (jsonErrorObj ("An error occurred while streaming: " ++ msg))]

/-! ### Budget-vs-actual classification
(`travel-budget-optimizer/.../spending_analyzer/tools.py`,
`compare_budget_vs_actual`) -/

/-- Per-category status: `if actual > budgeted: "over_budget" elif actual <
budgeted * 0.8: "under_budget" else: "on_track"`. -/
def categoryStatus (budgeted actual : ℚ) : String :=
  if actual > budgeted then "over_budget"
  else if actual < budgeted * (4 / 5) then "under_budget"
  else "on_track"

/-- Overall status over `total_budgeted` / `total_actual` — the same
three-way test written out a second time in the source. -/
def overallStatus (total_budgeted total_actual : ℚ) : String :=
  if total_actual > total_budgeted then "over_budget"
  else if total_actual < total_budgeted * (4 / 5) then "under_budget"
  else "on_track"

/-! ### Spending analysis (`analyze_spending_patterns`)

An expense dict as consumed by the analyzer: `exp["amount"]` is accessed
unconditionally (a missing amount would raise), the category is
`exp.get("category", "Uncategorized")`. -/

structure AnalyzerExpense where
  amount : ℚ
  category : Option String
  date : Option String
  deriving Repr, DecidableEq

def AnalyzerExpense.cat (e : AnalyzerExpense) : String :=
  e.category.getD "Uncategorized"

/-- The fields of `SpendingAnalysisOutputSchema` the analysis computes
(`top_categories`, `date_range` and `insights` are used by no claim and are
not tracked). -/
structure SpendingAnalysis where
  total_spending : ℚ
  expense_count : ℕ
  average_expense : ℚ
  category_breakdown : List (String × ℚ)
  deriving Repr, DecidableEq

/-- `analyze_spending_patterns` over the list of expenses returned by
`get_expenses` (empty list ⇒ the all-zero early return). -/
def analyze_spending_patterns (expenses : List AnalyzerExpense) : SpendingAnalysis :=
  match expenses with
  | [] => { total_spending := 0, expense_count := 0, average_expense := 0,
            category_breakdown := [] }
  | _ =>
    let total_spending := (expenses.map AnalyzerExpense.amount).sum
    let expense_count := expenses.length
    { total_spending := total_spending
      expense_count := expense_count
      average_expense :=
        if expense_count > 0 then total_spending / expense_count else 0
      category_breakdown :=
        expenses.foldl (fun m e => addCategory m e.cat e.amount) [] }

/-! ### Expense agent (`expense-tracker-gcp-master/expense_agent/agent.py`) -/

/-- An expense document as validated by `ExpenseSchema` in
`get_expense_summary` (all fields required; pydantic would raise on a
missing one). -/
structure SummaryExpense where
  id : String
  name : String
  amount : ℚ
  date : String
  category : String
  deriving Repr, DecidableEq

/-- The fields of `ExpenseSummaryOutputSchema`. -/
structure ExpenseSummary where
  total : ℚ
  categories : List (String × ℚ)
  expenses : List SummaryExpense
  budget : Option String
  deriving Repr, DecidableEq

/-- `get_expense_summary` over the documents returned by the current-month
Firestore query, and the (already serialized) current-month budget. -/
def get_expense_summary (docs : List SummaryExpense) (budget : Option String) :
    ExpenseSummary :=
  { total := (docs.map SummaryExpense.amount).sum
    categories := docs.foldl (fun m e => addCategory m e.category e.amount) []
    expenses := docs
    budget := budget }

/-- A budget document (`BudgetModel`). -/
structure BudgetModel where
  amount : ℚ
  month : ℤ
  year : ℤ
  deriving Repr, DecidableEq

/-- A Firestore collection keyed by document id. -/
def BudgetStore : Type := String → Option BudgetModel

def ExpenseStore : Type := String → Option ExpenseDoc

/-- Python truthiness applied to an optional float argument: `if data.amount:
budget.amount = data.amount` keeps the old value both for `None` and for
`0.0`. -/
def applyTruthyQ (cur : ℚ) : Option ℚ → ℚ
  | none => cur
  | some a => if a = 0 then cur else a

/-- Same for an optional int argument. -/
def applyTruthyZ (cur : ℤ) : Option ℤ → ℤ
  | none => cur
  | some a => if a = 0 then cur else a

/-- `update_budget(budget_id, amount, month, year)`: existence check, then
truthiness-guarded field updates, then a full `set(..., merge=True)` of the
model dump (which rewrites all three fields). -/
def update_budget (store : BudgetStore) (budget_id : String)
    (amount : Option ℚ) (month year : Option ℤ) : String × BudgetStore :=
  match store budget_id with
  | none => ("Budget not found", store)
  | some b =>
    let b' : BudgetModel :=
      { amount := applyTruthyQ b.amount amount
        month := applyTruthyZ b.month month
        year := applyTruthyZ b.year year }
    ("Budget updated successfully",
     fun k => if k = budget_id then some b' else store k)

/-- `delete_budget(budget_id)`: a blind `doc_ref.delete()` — Firestore's
delete succeeds whether or not the document exists. -/
def delete_budget (store : BudgetStore) (budget_id : String) : String × BudgetStore :=
  ("Budget deleted successfully",
   fun k => if k = budget_id then none else store k)

/-- `delete_expense(expense_id)`: likewise a blind delete. -/
def delete_expense (store : ExpenseStore) (expense_id : String) : String × ExpenseStore :=
  ("Expense deleted successfully",
   fun k => if k = expense_id then none else store k)

/-- `update_expense(expense_id, name, amount, date, category)`: existence
check, then `doc_dict[key] = value` for every argument that `is not None`
(the date is re-parsed and stored in ISO form; a bad date raises, modelled
as `none`). -/
def update_expense (store : ExpenseStore) (expense_id : String)
    (name : Option String) (amount : Option ℚ) (date : Option String)
    (category : Option String) : Option (String × ExpenseStore) :=
  match store expense_id with
  | none => some ("Expense not found", store)
  | some doc =>
    let dateIso : Option (Option String) :=
      match date with
      | none => some none
      | some ds => match parseYMD ds with
        | none => none
        | some t => some (some (isoOf t "00:00:00"))
    match dateIso with
    | none => none
    | some dIso =>
      let doc' : ExpenseDoc :=
        { id := doc.id
          name := match name with | some n => some n | none => doc.name
          amount := match amount with | some a => some a | none => doc.amount
          category := match category with | some c => some c | none => doc.category
          date := match dIso with | some d => some d | none => doc.date }
      some ("Expense updated successfully",
            fun k => if k = expense_id then some doc' else store k)

/-! ### Itinerary persistence
(`personalized-travel-agent/travel_concierge/tools/firestore_persistence.py`)

The itinerary is an arbitrary nested JSON value; a Firestore document is its
top-level field map.  `doc_ref.set(data, merge=True)` merges per field path:
map-valued fields are merged recursively, every other field (including
arrays) is replaced, and fields of the stored document that the data does
not mention are preserved. -/

inductive JsonVal where
  | str (s : String)
  | num (q : ℚ)
  | jbool (b : Bool)
  | jnull
  | arr (xs : List JsonVal)
  | obj (fields : List (String × JsonVal))

/-- Python truthiness of a JSON value (`if not itinerary`). -/
def JsonVal.falsy : JsonVal → Bool
  | .str s => s = ""
  | .num q => q = 0
  | .jbool b => !b
  | .jnull => true
  | .arr xs => xs.isEmpty
  | .obj fs => fs.isEmpty

def lookupField (k : String) : List (String × JsonVal) → Option JsonVal
  | [] => none
  | (k', v) :: rest => if k' = k then some v else lookupField k rest

def removeField (k : String) : List (String × JsonVal) → List (String × JsonVal)
  | [] => []
  | (k', v) :: rest => if k' = k then removeField k rest else (k', v) :: removeField k rest

mutual

/-- Merge a data value into a stored value at one field path: two maps merge
recursively, anything else is replaced by the data value. -/
def deepMerge : JsonVal → JsonVal → JsonVal
  | JsonVal.obj o, JsonVal.obj n => JsonVal.obj (mergeFields o n)
  | _, n => n

/-- Merge the data field list `new` into the stored field list `old`:
stored fields keep their place (merged with the data value when the data
also has the key), data-only fields are appended. -/
def mergeFields : List (String × JsonVal) → List (String × JsonVal) → List (String × JsonVal)
  | [], new => new
  | (k, v) :: rest, new =>
    match lookupField k new with
    | some w => (k, deepMerge v w) :: mergeFields rest (removeField k new)
    | none => (k, v) :: mergeFields rest new

end

/-- A Firestore document: its top-level field map. -/
def FireDoc : Type := List (String × JsonVal)

/-- The `itineraries` collection, keyed by user id. -/
def ItineraryStore : Type := String → Option FireDoc

inductive SaveResult where
  | success
  | error (msg : String)

inductive LoadResult where
  | success (itinerary : JsonVal)
  | notFound
  | error (msg : String)

/-- `save_itinerary_to_firestore`: refuse a falsy itinerary; otherwise build
`{"itinerary": ..., "user_id": ..., "updated_at": SERVER_TIMESTAMP}` (adding
`created_at` only when the document does not yet exist) and
`set(..., merge=True)` it onto the document for `user_id`.  `ts` stands for
the resolved server timestamp. -/
def save_itinerary_to_firestore (store : ItineraryStore) (user_id : String)
    (itinerary : JsonVal) (ts : JsonVal) : SaveResult × ItineraryStore :=
  if itinerary.falsy then
    (SaveResult.error "No itinerary found in the current state to save.", store)
  else
    match store user_id with
    | some old =>
      let data : FireDoc :=
        [("itinerary", itinerary), ("user_id", JsonVal.str user_id), ("updated_at", ts)]
      (SaveResult.success, fun k => if k = user_id then some (mergeFields old data) else store k)
    | none =>
      let data : FireDoc :=
        [("itinerary", itinerary), ("user_id", JsonVal.str user_id), ("updated_at", ts),
         ("created_at", ts)]
      (SaveResult.success, fun k => if k = user_id then some data else store k)

/-- `load_itinerary_from_firestore`: missing document ⇒ `not_found`; document
without a truthy `itinerary` field ⇒ error; otherwise the stored itinerary
value. -/
def load_itinerary_from_firestore (store : ItineraryStore) (user_id : String) : LoadResult :=
  match store user_id with
  | none => LoadResult.notFound
  | some doc =>
    match lookupField "itinerary" doc with
    | some itin =>
      if itin.falsy then
        LoadResult.error "Itinerary document exists but contains no itinerary data"
      else LoadResult.success itin
    | none => LoadResult.error "Itinerary document exists but contains no itinerary data"

/-! ### Helper lemmas -/

/-- Sum of the values of a category map. -/
def sumValues (m : List (String × ℚ)) : ℚ := (m.map Prod.snd).sum

theorem sumValues_addCategory (m : List (String × ℚ)) (c : String) (a : ℚ) :
    sumValues (addCategory m c a) = sumValues m + a := by
  induction m with
  | nil => simp [addCategory, sumValues]
  | cons p rest ih =>
    obtain ⟨k, v⟩ := p
    by_cases h : k = c
    · simp [addCategory, h, sumValues]
      ring
    · simp [addCategory, h, sumValues] at ih ⊢
      rw [ih]
      ring

theorem sumValues_foldl_addCategory {α : Type} (f : α → String) (g : α → ℚ) :
    ∀ (l : List α) (m : List (String × ℚ)),
      sumValues (l.foldl (fun acc x => addCategory acc (f x) (g x)) m) =
        sumValues m + (l.map g).sum := by
  intro l
  induction l with
  | nil => simp
  | cons x rest ih =>
    intro m
    simp only [List.foldl_cons, List.map_cons, List.sum_cons]
    rw [ih, sumValues_addCategory]
    ring

/-- The documents the dashboard loop actually processes. -/
def keptDocs (docs : List ExpenseDoc) : List ExpenseDoc :=
  docs.filter (fun d => !d.emptyData)

theorem dashLoop_foldl (docs : List ExpenseDoc) :
    ∀ acc : DashAcc,
      List.foldl dashStep acc docs =
        { expenses := acc.expenses ++ ((keptDocs docs).map ExpenseDoc.preview)
          total_amount := acc.total_amount + ((keptDocs docs).map ExpenseDoc.amt).sum
          categories :=
            (keptDocs docs).foldl (fun m d => addCategory m d.cat d.amt) acc.categories
          expense_count := acc.expense_count + (keptDocs docs).length } := by
  induction docs with
  | nil => intro acc; simp [keptDocs]
  | cons d rest ih =>
    intro acc
    cases hd : d.emptyData with
    | true => simp [List.foldl_cons, dashStep, hd, ih, keptDocs]
    | false =>
      have hk : keptDocs (d :: rest) = d :: keptDocs rest := by
        simp [keptDocs, List.filter_cons, hd]
      rw [List.foldl_cons, dashStep]
      simp only [hd, Bool.false_eq_true, if_false]
      rw [ih, hk]
      simp only [List.map_cons, List.sum_cons, List.length_cons, List.foldl_cons]
      congr 1
      · simp
      · ring
      · omega

theorem dashLoop_spec (docs : List ExpenseDoc) :
    dashLoop docs =
      { expenses := (keptDocs docs).map ExpenseDoc.preview
        total_amount := ((keptDocs docs).map ExpenseDoc.amt).sum
        categories := (keptDocs docs).foldl (fun m d => addCategory m d.cat d.amt) []
        expense_count := (keptDocs docs).length } := by
  rw [dashLoop, dashLoop_foldl]
  simp

/-- A document that passes a query with a present lower bound has a date,
so its data dict is non-empty. -/
theorem passesBounds_some_not_empty (lo hi : String) (d : ExpenseDoc)
    (h : passesBounds (some lo) (some hi) d = true) : d.emptyData = false := by
  rcases hdate : d.date with _ | ds
  · simp [passesBounds, lowerBoundOk, hdate] at h
  · simp [ExpenseDoc.emptyData, hdate]

theorem keptDocs_filter_passes (db : List ExpenseDoc) (lo hi : String) :
    keptDocs (db.filter (passesBounds (some lo) (some hi))) =
      db.filter (passesBounds (some lo) (some hi)) := by
  rw [keptDocs, List.filter_eq_self]
  intro d hd
  rw [List.mem_filter] at hd
  simp [passesBounds_some_not_empty lo hi d hd.2]

theorem passesBounds_eq_inDateRange (lo hi : String) (d : ExpenseDoc) :
    passesBounds (some lo) (some hi) d = inDateRange lo hi d := by
  rcases hdate : d.date with _ | ds
  · simp [passesBounds, lowerBoundOk, upperBoundOk, inDateRange, hdate]
  · simp [passesBounds, lowerBoundOk, upperBoundOk, inDateRange, hdate]

/-! ### Claims -/

/-- C1: for every valid pair of date strings (start ≤ end) given to
`get_dashboard_data`, the returned `total_amount` is the sum of the `amount`
field over exactly the documents whose date string lies between the start
date at midnight and the end date at 23:59:59 (string comparison), and
`expense_count` is the number of such documents. -/
theorem dashboard_range_aggregation_correct
    (db : List ExpenseDoc) (s e loIso hiIso : String) (r : DashboardData)
    (_hvalid : strLe s e = true)
    (hlo : startIsoOf s = some loIso)
    (hhi : endIsoOf e = some hiIso)
    (hrun : get_dashboard_data db (some s) (some e) = some r) :
    r.total_amount = ((db.filter (inDateRange loIso hiIso)).map ExpenseDoc.amt).sum ∧
    r.expense_count = (db.filter (inDateRange loIso hiIso)).length := by
  have hres1 : resolveBound startIsoOf (some s) = some (some loIso) := by
    simp [resolveBound, hlo]
  have hres2 : resolveBound endIsoOf (some e) = some (some hiIso) := by
    simp [resolveBound, hhi]
  rw [get_dashboard_data, hres1, hres2] at hrun
  have hr := (Option.some.inj hrun).symm
  subst hr
  have hfilter : db.filter (passesBounds (some loIso) (some hiIso)) =
      db.filter (inDateRange loIso hiIso) :=
    List.filter_congr (fun d _ => passesBounds_eq_inDateRange loIso hiIso d)
  constructor
  · show (dashLoop _).total_amount = _
    rw [dashLoop_spec, keptDocs_filter_passes, hfilter]
  · show (dashLoop _).expense_count = _
    rw [dashLoop_spec, keptDocs_filter_passes, hfilter]

/-- A tiny concrete expense collection used by the witnesses. -/
def dbW : List ExpenseDoc :=
  [{ id := "a", name := some "Lunch", amount := some 10, category := some "Food",
     date := some "2024-01-02T00:00:00" },
   { id := "b", name := some "Hotel", amount := some 5, category := none,
     date := some "2024-02-02T00:00:00" }]

/-- The dashboard result for `dbW` filtered to January 2024. -/
def dashW : DashboardData :=
  { total_amount := 10
    expense_count := 1
    average_expense := 10
    categories := [("Food", 10)]
    expenses := [{ id := "a", name := "Lunch", amount := 10, category := "Food",
                   date := some "2024-01-02T00:00:00" }] }

theorem dashW_run :
    get_dashboard_data dbW (some "2024-01-01") (some "2024-01-31") = some dashW := by
  have h1 : resolveBound startIsoOf (some "2024-01-01")
      = some (some "2024-01-01T00:00:00") := by decide
  have h2 : resolveBound endIsoOf (some "2024-01-31")
      = some (some "2024-01-31T23:59:59") := by decide
  have h3 : dbW.filter (passesBounds (some "2024-01-01T00:00:00") (some "2024-01-31T23:59:59"))
      = [{ id := "a", name := some "Lunch", amount := some 10, category := some "Food",
           date := some "2024-01-02T00:00:00" }] := by decide
  rw [get_dashboard_data, h1, h2]
  simp only [h3]
  norm_num [dashLoop, dashStep, dashW, ExpenseDoc.emptyData, ExpenseDoc.amt, ExpenseDoc.cat,
    ExpenseDoc.preview, addCategory]

theorem dashboard_range_aggregation_correct_witness :
    dashW.total_amount =
      ((dbW.filter (inDateRange "2024-01-01T00:00:00" "2024-01-31T23:59:59")).map
          ExpenseDoc.amt).sum ∧
    dashW.expense_count =
      (dbW.filter (inDateRange "2024-01-01T00:00:00" "2024-01-31T23:59:59")).length :=
  dashboard_range_aggregation_correct dbW "2024-01-01" "2024-01-31"
    "2024-01-01T00:00:00" "2024-01-31T23:59:59" dashW
    (by decide) (by decide) (by decide) dashW_run

/-- C8: the returned `expenses` preview is exactly the first `min(10, n)`
processed documents in fetch order, while `total_amount`, `expense_count`,
`average_expense` and `categories` are computed over all `n` matching
documents. -/
theorem dashboard_preview_cap
    (db : List ExpenseDoc) (sd ed : Option String) (lo hi : Option String)
    (r : DashboardData)
    (hlo : resolveBound startIsoOf sd = some lo)
    (hhi : resolveBound endIsoOf ed = some hi)
    (hrun : get_dashboard_data db sd ed = some r) :
    r.expenses = ((keptDocs (db.filter (passesBounds lo hi))).map ExpenseDoc.preview).take 10 ∧
    r.expenses.length = min 10 (keptDocs (db.filter (passesBounds lo hi))).length ∧
    r.expense_count = (keptDocs (db.filter (passesBounds lo hi))).length ∧
    r.total_amount = ((keptDocs (db.filter (passesBounds lo hi))).map ExpenseDoc.amt).sum ∧
    r.average_expense =
      (if r.expense_count > 0 then r.total_amount / r.expense_count else 0) ∧
    r.categories =
      (keptDocs (db.filter (passesBounds lo hi))).foldl
        (fun m d => addCategory m d.cat d.amt) [] := by
  rw [get_dashboard_data, hlo, hhi] at hrun
  have hr := (Option.some.inj hrun).symm
  subst hr
  refine ⟨?_, ?_, ?_, ?_, ?_, ?_⟩
  · show (dashLoop _).expenses.take 10 = _
    rw [dashLoop_spec]
  · show ((dashLoop _).expenses.take 10).length = _
    rw [dashLoop_spec]
    simp [List.length_take]
  · show (dashLoop _).expense_count = _
    rw [dashLoop_spec]
  · show (dashLoop _).total_amount = _
    rw [dashLoop_spec]
  · rfl
  · show (dashLoop _).categories = _
    rw [dashLoop_spec]

theorem dashboard_preview_cap_witness :
    dashW.expenses =
      ((keptDocs (dbW.filter (passesBounds (some "2024-01-01T00:00:00")
          (some "2024-01-31T23:59:59")))).map ExpenseDoc.preview).take 10 ∧
    dashW.expenses.length =
      min 10 (keptDocs (dbW.filter (passesBounds (some "2024-01-01T00:00:00")
          (some "2024-01-31T23:59:59")))).length ∧
    dashW.expense_count =
      (keptDocs (dbW.filter (passesBounds (some "2024-01-01T00:00:00")
          (some "2024-01-31T23:59:59")))).length ∧
    dashW.total_amount =
      ((keptDocs (dbW.filter (passesBounds (some "2024-01-01T00:00:00")
          (some "2024-01-31T23:59:59")))).map ExpenseDoc.amt).sum ∧
    dashW.average_expense =
      (if dashW.expense_count > 0 then dashW.total_amount / dashW.expense_count else 0) ∧
    dashW.categories =
      (keptDocs (dbW.filter (passesBounds (some "2024-01-01T00:00:00")
          (some "2024-01-31T23:59:59")))).foldl (fun m d => addCategory m d.cat d.amt) [] :=
  dashboard_preview_cap dbW (some "2024-01-01") (some "2024-01-31")
    (some "2024-01-01T00:00:00") (some "2024-01-31T23:59:59") dashW
    (by decide) (by decide) dashW_run

/-- C3: in each of the three aggregation outputs — the dashboard categories
map, `get_expense_summary`'s categories, and the spending analyzer's
`category_breakdown` — the per-category totals sum to the reported grand
total, for every non-empty expense set. -/
theorem category_sums_equal_totals
    (db : List ExpenseDoc) (sd ed : Option String) (r : DashboardData)
    (sumDocs : List SummaryExpense) (b : Option String)
    (anaDocs : List AnalyzerExpense) :
    (db ≠ [] → get_dashboard_data db sd ed = some r →
      sumValues r.categories = r.total_amount) ∧
    (sumDocs ≠ [] →
      sumValues (get_expense_summary sumDocs b).categories =
        (get_expense_summary sumDocs b).total) ∧
    (anaDocs ≠ [] →
      sumValues (analyze_spending_patterns anaDocs).category_breakdown =
        (analyze_spending_patterns anaDocs).total_spending) := by
  refine ⟨?_, ?_, ?_⟩
  · intro _ hrun
    rw [get_dashboard_data] at hrun
    rcases h1 : resolveBound startIsoOf sd with _ | lo
    · rw [h1] at hrun; cases hrun
    · rcases h2 : resolveBound endIsoOf ed with _ | hi
      · rw [h1, h2] at hrun; cases hrun
      · rw [h1, h2] at hrun
        have hr := (Option.some.inj hrun).symm
        subst hr
        show sumValues (dashLoop _).categories = (dashLoop _).total_amount
        rw [dashLoop_spec]
        have h := sumValues_foldl_addCategory ExpenseDoc.cat ExpenseDoc.amt
          (keptDocs (db.filter (passesBounds lo hi))) []
        simpa [sumValues] using h
  · intro _
    have h := sumValues_foldl_addCategory SummaryExpense.category SummaryExpense.amount
      sumDocs []
    simpa [get_expense_summary, sumValues] using h
  · intro hne
    rcases anaDocs with _ | ⟨x, rest⟩
    · exact absurd rfl hne
    · have h := sumValues_foldl_addCategory AnalyzerExpense.cat AnalyzerExpense.amount
        (x :: rest) []
      simpa [analyze_spending_patterns, sumValues] using h

theorem category_sums_equal_totals_witness :
    sumValues dashW.categories = dashW.total_amount ∧
    sumValues (get_expense_summary
        [{ id := "s1", name := "Tea", amount := 3, date := "2024-03-01T00:00:00",
           category := "Drinks" }] none).categories =
      (get_expense_summary
        [{ id := "s1", name := "Tea", amount := 3, date := "2024-03-01T00:00:00",
           category := "Drinks" }] none).total ∧
    sumValues (analyze_spending_patterns
        [{ amount := 7, category := none, date := none }]).category_breakdown =
      (analyze_spending_patterns
        [{ amount := 7, category := none, date := none }]).total_spending :=
  ⟨(category_sums_equal_totals dbW (some "2024-01-01") (some "2024-01-31") dashW
      [] none []).1 (by decide) dashW_run,
   (category_sums_equal_totals dbW none none dashW
      [{ id := "s1", name := "Tea", amount := 3, date := "2024-03-01T00:00:00",
         category := "Drinks" }] none []).2.1 (by decide),
   (category_sums_equal_totals dbW none none dashW []
      none [{ amount := 7, category := none, date := none }]).2.2 (by decide)⟩

/-- C2 counterexample: with a negative budget the claimed characterization
"status is under_budget iff actual < 0.8 × budgeted" fails — at
budgeted = −10, actual = −9 we have actual < 0.8 × budgeted, yet the code's
first branch (`actual > budgeted`) fires and classifies it over_budget. -/
theorem budget_status_claim_counterexample :
    ((-9 : ℚ) < (-10 : ℚ) * (4 / 5)) ∧
    categoryStatus (-10) (-9) = "over_budget" ∧
    categoryStatus (-10) (-9) ≠ "under_budget" := by
  have h : categoryStatus (-10) (-9) = "over_budget" := by
    rw [categoryStatus, if_pos (by norm_num : (-9 : ℚ) > (-10 : ℚ))]
  refine ⟨by norm_num, h, ?_⟩
  rw [h]
  decide

/-- C2 (amended): for every nonnegative budgeted amount, the classification
is exactly one of the three statuses with the claimed thresholds —
under_budget iff actual < 0.8 × budgeted, over_budget iff actual > budgeted,
on_track otherwise — and the overall total is classified by the same rule
(in particular 800 against 1000 is on_track). -/
theorem budget_status_thresholds
    (b a : ℚ) (hb : 0 ≤ b) :
    (categoryStatus b a = "under_budget" ↔ a < b * (4 / 5)) ∧
    (categoryStatus b a = "over_budget" ↔ b < a) ∧
    (categoryStatus b a = "on_track" ↔ (a ≤ b ∧ b * (4 / 5) ≤ a)) ∧
    overallStatus b a = categoryStatus b a := by
  have h45 : b * (4 / 5) ≤ b := by nlinarith
  unfold categoryStatus overallStatus
  split_ifs with h1 h2
  · refine ⟨iff_of_false (by decide) ?_, iff_of_true rfl h1,
      iff_of_false (by decide) ?_, rfl⟩
    · intro h; linarith
    · rintro ⟨hab, -⟩; exact absurd h1 (not_lt.mpr hab)
  · refine ⟨iff_of_true rfl h2, iff_of_false (by decide) h1,
      iff_of_false (by decide) ?_, rfl⟩
    rintro ⟨-, h45a⟩; exact absurd h2 (not_lt.mpr h45a)
  · exact ⟨iff_of_false (by decide) h2, iff_of_false (by decide) h1,
      iff_of_true rfl ⟨not_lt.mp h1, not_lt.mp h2⟩, rfl⟩

theorem budget_status_thresholds_witness :
    categoryStatus 1000 800 = "on_track" ∧ overallStatus 1000 800 = "on_track" := by
  have h := budget_status_thresholds 1000 800 (by norm_num)
  have hon : categoryStatus 1000 800 = "on_track" :=
    h.2.2.1.mpr ⟨by norm_num, by norm_num⟩
  exact ⟨hon, by rw [h.2.2.2, hon]⟩

/-- C4: the classification is monotonic in actual spending — for a fixed
budget, if a smaller actual is already over_budget then every larger actual
is over_budget too (and likewise for the overall status). -/
theorem over_budget_monotone
    (b a1 a2 : ℚ) (h12 : a1 ≤ a2) :
    (categoryStatus b a1 = "over_budget" → categoryStatus b a2 = "over_budget") ∧
    (overallStatus b a1 = "over_budget" → overallStatus b a2 = "over_budget") := by
  have key : categoryStatus b a1 = "over_budget" → b < a1 := by
    intro h1
    by_contra hc
    rw [categoryStatus, if_neg hc] at h1
    split_ifs at h1 <;> exact absurd h1 (by decide)
  constructor
  · intro h1
    rw [categoryStatus, if_pos (lt_of_lt_of_le (key h1) h12)]
  · intro h1
    have h1' : categoryStatus b a1 = "over_budget" := h1
    rw [overallStatus, if_pos (lt_of_lt_of_le (key h1') h12)]

theorem over_budget_monotone_witness :
    categoryStatus 10 12 = "over_budget" ∧ overallStatus 10 12 = "over_budget" := by
  have h := over_budget_monotone 10 11 12 (by norm_num)
  have h11 : categoryStatus 10 11 = "over_budget" := by
    rw [categoryStatus, if_pos (by norm_num : (11 : ℚ) > 10)]
  exact ⟨h.1 h11, h.2 h11⟩

/-- C7: when the upstream iterator of a streaming endpoint raises, the SSE
stream emits exactly the events produced so far, followed by exactly one
additional error chunk whose payload is the JSON object
`{"error": "An error occurred while streaming: <exception>"}`, and then
terminates; no retry happens.  This holds for both
`POST /api/sessions/<id>/stream` and `POST /api/expense/run_sse`. -/
theorem streaming_single_error_event (events lines : List String) (msg : String) :
    streamChatEventStream events (some msg) =
      streamChatEventStream events none ++
        [sseChunk (jsonErrorObj ("An error occurred while streaming: " ++ msg))] ∧
    expenseRunSseEventStream lines (some msg) =
      expenseRunSseEventStream lines none ++
        [sseChunk (jsonErrorObj ("An error occurred while streaming: " ++ msg))] ∧
    sseChunk (jsonErrorObj ("An error occurred while streaming: " ++ msg)) =
      "data: " ++
        ("\x7b\"error\": \"" ++
          jsonEscape ("An error occurred while streaming: " ++ msg) ++ "\"\x7d") ++
        "\n\n" := by
  refine ⟨?_, ?_, rfl⟩
  · simp [streamChatEventStream]
  · simp [expenseRunSseEventStream]

/-- C10: the delete operations return their success message for every id,
existing or not — they do no existence check — while the update operations
do check and report "not found". -/
theorem blind_deletes_report_success
    (es : ExpenseStore) (bs : BudgetStore) (eid bid : String) :
    (delete_expense es eid).1 = "Expense deleted successfully" ∧
    (delete_budget bs bid).1 = "Budget deleted successfully" ∧
    (es eid = none →
      update_expense es eid none none none none = some ("Expense not found", es)) ∧
    (bs bid = none → (update_budget bs bid none none none).1 = "Budget not found") := by
  refine ⟨rfl, rfl, ?_, ?_⟩
  · intro h
    rw [update_expense, h]
  · intro h
    rw [update_budget, h]

def emptyExpenseStore : ExpenseStore := fun _ => none

def emptyBudgetStore : BudgetStore := fun _ => none

theorem blind_deletes_report_success_witness :
    (delete_expense emptyExpenseStore "x").1 = "Expense deleted successfully" ∧
    (delete_budget emptyBudgetStore "y").1 = "Budget deleted successfully" ∧
    update_expense emptyExpenseStore "x" none none none none =
      some ("Expense not found", emptyExpenseStore) ∧
    (update_budget emptyBudgetStore "y" none none none).1 = "Budget not found" := by
  have h := blind_deletes_report_success emptyExpenseStore emptyBudgetStore "x" "y"
  exact ⟨h.1, h.2.1, h.2.2.1 rfl, h.2.2.2 rfl⟩

/-- One `update_budget` invocation: (budget_id, amount, month, year). -/
def BudgetCall : Type := String × Option ℚ × Option ℤ × Option ℤ

def runBudgetUpdates (store : BudgetStore) (calls : List BudgetCall) : BudgetStore :=
  calls.foldl (fun st c => (update_budget st c.1 c.2.1 c.2.2.1 c.2.2.2).2) store

theorem applyTruthyQ_ne_zero {cur : ℚ} (h : cur ≠ 0) (o : Option ℚ) :
    applyTruthyQ cur o ≠ 0 := by
  cases o with
  | none => exact h
  | some a =>
    rw [applyTruthyQ]
    split_ifs with ha
    · exact h
    · exact ha

theorem update_budget_store_none (st : BudgetStore) (cid : String)
    (amt : Option ℚ) (m y : Option ℤ) (h : st cid = none) :
    (update_budget st cid amt m y).2 = st := by
  rw [update_budget, h]

theorem update_budget_store_some (st : BudgetStore) (cid : String)
    (amt : Option ℚ) (m y : Option ℤ) (b : BudgetModel) (h : st cid = some b) :
    (update_budget st cid amt m y).2 =
      fun k => if k = cid then
        some { amount := applyTruthyQ b.amount amt
               month := applyTruthyZ b.month m
               year := applyTruthyZ b.year y }
      else st k := by
  rw [update_budget, h]

theorem update_budget_preserves_nonzero (st : BudgetStore) (cid : String)
    (amt : Option ℚ) (m y : Option ℤ) (id : String)
    (hinv : ∀ b, st id = some b → b.amount ≠ 0) :
    ∀ b', (update_budget st cid amt m y).2 id = some b' → b'.amount ≠ 0 := by
  intro b' hb'
  rcases hcid : st cid with _ | b
  · rw [update_budget_store_none st cid amt m y hcid] at hb'
    exact hinv b' hb'
  · rw [update_budget_store_some st cid amt m y b hcid] at hb'
    by_cases hid : id = cid
    · subst hid
      have hb2 : some { amount := applyTruthyQ b.amount amt
                        month := applyTruthyZ b.month m
                        year := applyTruthyZ b.year y } = some b' := by
        simpa using hb'
      rw [← Option.some.inj hb2]
      exact applyTruthyQ_ne_zero (hinv b hcid) amt
    · have hb2 : st id = some b' := by simpa [hid] using hb'
      exact hinv b' hb2

theorem runBudgetUpdates_preserves_nonzero (calls : List BudgetCall) :
    ∀ (st : BudgetStore) (id : String),
      (∀ b, st id = some b → b.amount ≠ 0) →
      ∀ b', runBudgetUpdates st calls id = some b' → b'.amount ≠ 0 := by
  induction calls with
  | nil =>
    intro st id hinv b' hb'
    exact hinv b' hb'
  | cons c rest ih =>
    intro st id hinv b' hb'
    rw [runBudgetUpdates, List.foldl_cons] at hb'
    exact ih _ id
      (update_budget_preserves_nonzero st c.1 c.2.1 c.2.2.1 c.2.2.2 id hinv) b' hb'

/-- C9: `update_budget` applies a field exactly when the argument is truthy —
passing `0` behaves like passing `None` for each of amount, month and year,
while a nonzero amount is stored — and consequently no sequence of
`update_budget` calls can turn a nonzero stored amount into zero. -/
theorem update_budget_truthiness
    (store : BudgetStore) (budget_id : String) (amt : Option ℚ) (m y : Option ℤ) :
    update_budget store budget_id (some 0) m y =
      update_budget store budget_id none m y ∧
    update_budget store budget_id amt (some 0) y =
      update_budget store budget_id amt none y ∧
    update_budget store budget_id amt m (some 0) =
      update_budget store budget_id amt m none ∧
    (∀ (a : ℚ) (b : BudgetModel), a ≠ 0 → store budget_id = some b →
      (update_budget store budget_id (some a) m y).2 budget_id =
        some { amount := a, month := applyTruthyZ b.month m,
               year := applyTruthyZ b.year y }) ∧
    (∀ (calls : List BudgetCall) (b b' : BudgetModel),
      store budget_id = some b → b.amount ≠ 0 →
      runBudgetUpdates store calls budget_id = some b' → b'.amount ≠ 0) := by
  refine ⟨?_, ?_, ?_, ?_, ?_⟩
  · rcases h : store budget_id with _ | b
    · rw [update_budget, update_budget, h]
    · rw [update_budget, update_budget, h]
      simp [applyTruthyQ]
  · rcases h : store budget_id with _ | b
    · rw [update_budget, update_budget, h]
    · rw [update_budget, update_budget, h]
      simp [applyTruthyZ]
  · rcases h : store budget_id with _ | b
    · rw [update_budget, update_budget, h]
    · rw [update_budget, update_budget, h]
      simp [applyTruthyZ]
  · intro a b ha hb
    rw [update_budget_store_some store budget_id (some a) m y b hb]
    simp [applyTruthyQ, ha]
  · intro calls b b' hb hbne hb'
    refine runBudgetUpdates_preserves_nonzero calls store budget_id ?_ b' hb'
    intro b0 hb0
    rw [hb] at hb0
    rw [← Option.some.inj hb0]
    exact hbne

def budgetStoreW : BudgetStore :=
  fun k => if k = "b1" then some { amount := 100, month := 1, year := 2024 } else none

def budgetCallsW : List BudgetCall :=
  [("b1", some 0, some 0, none), ("b2", some 5, none, none)]

theorem update_budget_truthiness_witness :
    update_budget budgetStoreW "b1" (some 0) none none =
      update_budget budgetStoreW "b1" none none none ∧
    (update_budget budgetStoreW "b1" (some 2) none none).2 "b1" =
      some { amount := 2, month := 1, year := 2024 } ∧
    ({ amount := 100, month := 1, year := 2024 } : BudgetModel).amount ≠ 0 := by
  have h := update_budget_truthiness budgetStoreW "b1" (some 2) none none
  refine ⟨h.1, ?_, ?_⟩
  · exact h.2.2.2.1 2 { amount := 100, month := 1, year := 2024 } (by norm_num) rfl
  · refine h.2.2.2.2 budgetCallsW { amount := 100, month := 1, year := 2024 }
      { amount := 100, month := 1, year := 2024 } rfl (by norm_num) ?_
    simp [runBudgetUpdates, budgetCallsW, budgetStoreW, update_budget,
      applyTruthyQ, applyTruthyZ]

theorem lookupField_removeField (j k : String) :
    ∀ l : List (String × JsonVal),
      lookupField k (removeField j l) = if j = k then none else lookupField k l := by
  intro l
  induction l with
  | nil => simp [removeField, lookupField]
  | cons p rest ih =>
    obtain ⟨k', v⟩ := p
    rw [removeField]
    by_cases hkj : k' = j
    · rw [if_pos hkj, ih]
      by_cases hjk : j = k
      · simp [hjk]
      · have hk'k : k' ≠ k := by rw [hkj]; exact hjk
        simp [hjk, lookupField, hk'k]
    · rw [if_neg hkj]
      by_cases hkk : k' = k
      · have hjk : j ≠ k := by
          intro h
          exact hkj (hkk.trans h.symm)
        simp [lookupField, hkk, hjk]
      · simp [lookupField, hkk, ih]

theorem lookupField_mergeFields_of_notin :
    ∀ (old new : List (String × JsonVal)) (k : String),
      lookupField k new = none →
      lookupField k (mergeFields old new) = lookupField k old := by
  intro old
  induction old with
  | nil =>
    intro new k h
    rw [mergeFields, h]
    rfl
  | cons p rest ih =>
    intro new k h
    obtain ⟨k', v⟩ := p
    rcases hk' : lookupField k' new with _ | w
    · rw [mergeFields, hk']
      by_cases hkk : k' = k
      · subst hkk
        simp [lookupField]
      · simp only [lookupField, if_neg hkk]
        exact ih new k h
    · by_cases hkk : k' = k
      · subst hkk
        rw [h] at hk'
        cases hk'
      · rw [mergeFields, hk']
        simp only [lookupField, if_neg hkk]
        rw [ih (removeField k' new) k]
        rw [lookupField_removeField]
        simp [h, hkk]

def oldItinDocW : FireDoc :=
  [("itinerary", JsonVal.obj [("day1", JsonVal.str "museum"), ("day2", JsonVal.str "beach")]),
   ("user_id", JsonVal.str "u1"), ("updated_at", JsonVal.num 1), ("created_at", JsonVal.num 1)]

def itinStoreW : ItineraryStore := fun k => if k = "u1" then some oldItinDocW else none

def newItinW : JsonVal := JsonVal.obj [("day1", JsonVal.str "temple")]

/-- C5 counterexample: with a previously stored itinerary `{"day1": "museum",
"day2": "beach"}`, saving the itinerary `{"day1": "temple"}` and loading it
back returns `{"day1": "temple", "day2": "beach"}` — `set(..., merge=True)`
merges map fields recursively, so the round trip is not the identity. -/
theorem itinerary_roundtrip_counterexample :
    load_itinerary_from_firestore
        (save_itinerary_to_firestore itinStoreW "u1" newItinW (JsonVal.num 2)).2 "u1" =
      LoadResult.success
        (JsonVal.obj [("day1", JsonVal.str "temple"), ("day2", JsonVal.str "beach")]) ∧
    JsonVal.obj [("day1", JsonVal.str "temple"), ("day2", JsonVal.str "beach")] ≠ newItinW := by
  constructor
  · simp [save_itinerary_to_firestore, itinStoreW, oldItinDocW, newItinW,
      load_itinerary_from_firestore, mergeFields, deepMerge, lookupField, removeField,
      JsonVal.falsy]
  · intro h
    simp only [newItinW] at h
    injection h with hl
    have hlen := congrArg List.length hl
    simp at hlen

/-- C5 (amended): saving then loading returns exactly the saved itinerary
when no document previously exists for the user; and (the part of the claim
that does hold) the merge performed on save preserves every top-level key of
the stored document that the save payload does not mention. -/
theorem itinerary_roundtrip_amended
    (store : ItineraryStore) (uid : String) (itin ts : JsonVal)
    (hfalsy : itin.falsy = false) :
    (store uid = none →
      load_itinerary_from_firestore
        (save_itinerary_to_firestore store uid itin ts).2 uid = LoadResult.success itin) ∧
    (∀ old doc' k, store uid = some old →
      (save_itinerary_to_firestore store uid itin ts).2 uid = some doc' →
      k ≠ "itinerary" → k ≠ "user_id" → k ≠ "updated_at" →
      lookupField k doc' = lookupField k old) := by
  constructor
  · intro hnone
    simp [save_itinerary_to_firestore, hfalsy, hnone, load_itinerary_from_firestore,
      lookupField]
  · intro old doc' k hold hdoc' hk1 hk2 hk3
    rw [save_itinerary_to_firestore] at hdoc'
    simp only [hfalsy, Bool.false_eq_true, if_false, hold] at hdoc'
    have hdoc2 : some (mergeFields old
        [("itinerary", itin), ("user_id", JsonVal.str uid), ("updated_at", ts)]) =
        some doc' := by
      simpa using hdoc'
    rw [← Option.some.inj hdoc2]
    apply lookupField_mergeFields_of_notin
    have h1 : ("itinerary" : String) ≠ k := fun h => hk1 h.symm
    have h2 : ("user_id" : String) ≠ k := fun h => hk2 h.symm
    have h3 : ("updated_at" : String) ≠ k := fun h => hk3 h.symm
    simp [lookupField, h1, h2, h3]

def emptyItinStore : ItineraryStore := fun _ => none

def itinW : JsonVal := JsonVal.obj [("day1", JsonVal.str "zoo")]

/-- The merged document produced by the counterexample save. -/
def mergedItinDocW : FireDoc :=
  [("itinerary", JsonVal.obj [("day1", JsonVal.str "temple"), ("day2", JsonVal.str "beach")]),
   ("user_id", JsonVal.str "u1"), ("updated_at", JsonVal.num 2), ("created_at", JsonVal.num 1)]

theorem itinerary_roundtrip_amended_witness :
    load_itinerary_from_firestore
        (save_itinerary_to_firestore emptyItinStore "u9" itinW (JsonVal.num 3)).2 "u9" =
      LoadResult.success itinW ∧
    lookupField "created_at" mergedItinDocW = lookupField "created_at" oldItinDocW := by
  constructor
  · exact (itinerary_roundtrip_amended emptyItinStore "u9" itinW (JsonVal.num 3) rfl).1 rfl
  · refine (itinerary_roundtrip_amended itinStoreW "u1" newItinW (JsonVal.num 2) rfl).2
      oldItinDocW mergedItinDocW "created_at" ?_ ?_ (by decide) (by decide) (by decide)
    · simp [itinStoreW]
    · simp [save_itinerary_to_firestore, itinStoreW, newItinW, JsonVal.falsy,
        oldItinDocW, mergedItinDocW, mergeFields, deepMerge, lookupField, removeField]
